import Mathlib

/-
Verification of the provisioning pipeline of the flask_vm_api repository.

The Python sources (pool.py, libvirtConnector.py, utils.py) are shallowly
embedded below.  Shell execution, DNS lookups, file reads and the libvirt
control plane are external collaborators; they are modelled as oracles
(pure functions supplied as parameters), and every externally visible
action (shell command issued, DNS query, file read, pool/domain
definition) is recorded in an explicit trace so that ordering and
short-circuit properties can be stated.
-/

/-- Models Python re.split on a single separator character: the pieces of
the character list between occurrences of `sep`, keeping empty pieces. -/
def splitCharsAux (sep : Char) : List Char → List Char → List String
  | [], acc => [String.mk acc.reverse]
  | c :: cs, acc =>
      if c = sep then String.mk acc.reverse :: splitCharsAux sep cs []
      else splitCharsAux sep cs (c :: acc)

/-- Models `re.split(newlines, s)` of pool.py where `newlines = re.compile(r'\n+')`:
maximal runs of newline characters act as one separator.  Equivalently, it is
the single-character split with interior empty pieces removed, keeping one
leading empty piece when the string starts with a newline and one trailing
empty piece when it ends with one (and `[""]` on the empty string). -/
def splitNL (s : String) : List String :=
  let cs := s.toList
  if cs = [] then [""]
  else (if cs.head? = some '\n' then [""] else []) ++
       ((splitCharsAux '\n' cs []).filter (fun p => p ≠ "")) ++
       (if cs.getLast? = some '\n' then [""] else [])

/-- Models Python str.format rendering of a bytes value (as in
`'Command exited with errors: \x7b\x7d'.format(stderr)` in pool.py, where
`stderr` is bytes): `b` followed by the quoted payload.  Escaping of
non-printable bytes is not modelled; all modelled outputs are printable. -/
def pyBytesRepr (s : String) : String := "b\x27" ++ s ++ "\x27"

/-- Result of `DatasetManager._getIO` (pool.py lines 33-51) when it does not
raise: either the decoded stdout split into lines (when stdout was
non-empty), or the raw, unsplit empty stdout bytes (when it was empty, the
`if stdout:` branch is skipped and `b\x27\x27` is returned as-is). -/
inductive GetIoOut
  | lines (ls : List String)
  | rawEmpty
deriving DecidableEq

/-- Models the body of `_getIO` after the subprocess communicated, as a
function of the captured stdout and stderr (pool.py lines 41-51): raise
ValueError carrying the stderr text when stderr is non-empty; otherwise
split non-empty stdout on newline runs, dropping one trailing empty piece
(`if stdout[-1] == '': stdout = stdout[:-1]`); empty stdout is returned
unsplit. -/
def capturedOutput (stdout : String) : GetIoOut :=
  if stdout ≠ "" then
    let ls := splitNL stdout
    GetIoOut.lines (if ls.getLast? = some "" then ls.dropLast else ls)
  else GetIoOut.rawEmpty

/-- Models `_getIO`'s control flow: `if stderr: raise ValueError(...)`,
else return the (possibly split) stdout.  The error payload is the
ValueError's message string. -/
def getIoRes (stdout stderr : String) : Except String GetIoOut :=
  if stderr ≠ "" then
    Except.error ("Command exited with errors: " ++ pyBytesRepr stderr)
  else Except.ok (capturedOutput stdout)

/-- An execution oracle: what (stdout, stderr) each shell command string
produces when run. -/
def Exec : Type := String → String × String

/-- Models `DatasetManager._getIO(command)` against an execution oracle. -/
def getIo (ex : Exec) (command : String) : Except String GetIoOut :=
  getIoRes (ex command).1 (ex command).2

/-- Python indexing `xs[0]` on the value `_getIO` returned: on a line list
it is the head; on the raw empty bytes it is out of bounds (IndexError),
modelled as `none`. -/
def GetIoOut.first? : GetIoOut → Option String
  | .lines ls => ls.head?
  | .rawEmpty => none

/-- The uncaught Python exceptions our embedding distinguishes.  ValueError
is always represented structurally (as `Except.error` of its message) at
the point it is raised; the exceptions that escape every handler are the
IndexError of pool.py (raised by `loop[0]`/`mp[0]` indexing) and the
KeyError raised by the env dict lookup at libvirtConnector.py line 378,
whose missing key is carried. -/
inductive PyExc
  | indexError
  | keyError (key : String)
deriving DecidableEq

/-- State of `DatasetManager` (pool.py lines 19-31) after `__init__`. -/
structure DatasetManager where
  machineImage : String
  datasetName : String
  hostString : String
deriving DecidableEq

/-- Models `DatasetManager.__init__`: `hostString` is an ssh prefix when a
truthy host is given; a single trailing slash of the dataset name is
stripped when the name is longer than one character (pool.py lines 25-31). -/
def DatasetManager.init (machineImage datasetName : String) (host : Option String) :
    DatasetManager :=
  let hostString : String :=
    match host with
    | some h => if h ≠ "" then "ssh " ++ h ++ " " else ""
    | none => ""
  let dn : String :=
    if 1 < datasetName.length ∧ datasetName.toList.getLast? = some '/' then
      String.mk datasetName.toList.dropLast
    else datasetName
  ⟨machineImage, dn, hostString⟩

/-- The `zfs clone` command string built in pool.py line 62. -/
def DatasetManager.cloneCmd (d : DatasetManager) : String :=
  d.hostString ++ "zfs clone " ++ d.machineImage ++ " " ++ d.datasetName

/-- Models `DatasetManager.clone` (pool.py lines 53-64): run the clone
command, returning None on success and the caught ValueError rendered as
`Error ...` otherwise; the second component is the list of commands run. -/
def DatasetManager.clone (ex : Exec) (d : DatasetManager) : Option String × List String :=
  match getIo ex d.cloneCmd with
  | .error e => (some ("Error " ++ e), [d.cloneCmd])
  | .ok _ => (none, [d.cloneCmd])

/-- The `zfs get mountpoint` command string built in pool.py line 114. -/
def DatasetManager.mountPointCmd (d : DatasetManager) : String :=
  d.hostString ++ "zfs get mountpoint " ++ d.datasetName ++ " -Ho value"

/-- Models `DatasetManager.getMountPoint` (pool.py lines 106-117): on a
ValueError from `_getIO` the except branch returns the error string; on
success `mp[0]` is returned, which raises an uncaught IndexError when the
output was empty. -/
def DatasetManager.getMountPoint (ex : Exec) (d : DatasetManager) :
    Except PyExc String × List String :=
  match getIo ex d.mountPointCmd with
  | .error e => (.ok ("Error " ++ e), [d.mountPointCmd])
  | .ok out =>
    match out.first? with
    | some l => (.ok l, [d.mountPointCmd])
    | none => (.error .indexError, [d.mountPointCmd])

/-- The `losetup -fvP --show` command string built in pool.py line 82. -/
def DatasetManager.losetupCmd (d : DatasetManager) (mp : String) : String :=
  d.hostString ++ "losetup -fvP --show " ++ mp ++ "/root.raw"

/-- The `mount` command string built in pool.py line 83 (`mnt` is the value
of the REMOTE_LOOP_MOUNTPOINT environment entry). -/
def DatasetManager.mountCmd (d : DatasetManager) (dev mnt : String) : String :=
  d.hostString ++ "mount " ++ dev ++ "p1 " ++ mnt

/-- The interfaces-append command string built in pool.py line 86. -/
def DatasetManager.echoAddrCmd (d : DatasetManager) (ip mnt : String) : String :=
  d.hostString ++ "\x27echo \"    address " ++ ip ++ "\" >> " ++ mnt ++
    "/etc/network/interfaces\x27"

/-- The hostname-overwrite command string built in pool.py line 87. -/
def DatasetManager.echoHostCmd (d : DatasetManager) (hostname mnt : String) : String :=
  d.hostString ++ "\x27echo " ++ hostname ++ " > " ++ mnt ++ "/etc/hostname\x27"

/-- The `umount` command string built in pool.py line 100. -/
def DatasetManager.umountCmd (d : DatasetManager) (mnt : String) : String :=
  d.hostString ++ "umount " ++ mnt

/-- The `losetup -d` command string built in pool.py line 101. -/
def DatasetManager.detachCmd (d : DatasetManager) (dev : String) : String :=
  d.hostString ++ "losetup -d " ++ dev

/-- Control state of `inject`'s try block when it finishes (before the
finally block runs): a normal completion (the method will return None), a
ValueError caught by the except branch (pending return of the rendered
error string), or an uncaught IndexError in flight. -/
inductive Pending
  | retNone
  | retErr (msg : String)
  | excIndex
deriving DecidableEq

/-- Models the try block of `DatasetManager.inject` (pool.py lines 77-90).
Returns the pending outcome, the final value of the local `loop` (the
initial `[]` when the losetup line was not reached or returned empty
output; Python indexes both the empty list and empty bytes identically,
raising IndexError), and the commands run.  Note `getMountPoint` catches
its own ValueError and returns the error text as the mount path, so the
try block proceeds with that string; its only uncaught failure is the
IndexError of pool.py line 115. -/
def DatasetManager.injectTry (ex : Exec) (mnt ip hostname : String) (d : DatasetManager) :
    Pending × List String × List String :=
  match d.getMountPoint ex with
  | (.error _, tr) => (.excIndex, [], tr)
  | (.ok mp, tr) =>
    match getIo ex (d.losetupCmd mp) with
    | .error e => (.retErr ("Error " ++ e), [], tr ++ [d.losetupCmd mp])
    | .ok out =>
      let loop : List String := match out with | .lines ls => ls | .rawEmpty => []
      let tr1 := tr ++ [d.losetupCmd mp]
      match loop.head? with
      | none => (.excIndex, loop, tr1)
      | some dev =>
        match getIo ex (d.mountCmd dev mnt) with
        | .error e => (.retErr ("Error " ++ e), loop, tr1 ++ [d.mountCmd dev mnt])
        | .ok _ =>
          let tr2 := tr1 ++ [d.mountCmd dev mnt]
          match getIo ex (d.echoAddrCmd ip mnt) with
          | .error e => (.retErr ("Error " ++ e), loop, tr2 ++ [d.echoAddrCmd ip mnt])
          | .ok _ =>
            let tr3 := tr2 ++ [d.echoAddrCmd ip mnt]
            match getIo ex (d.echoHostCmd hostname mnt) with
            | .error e => (.retErr ("Error " ++ e), loop, tr3 ++ [d.echoHostCmd hostname mnt])
            | .ok _ => (.retNone, loop, tr3 ++ [d.echoHostCmd hostname mnt])

/-- Models the finally block of `inject` (pool.py lines 91-104): run
umount; a ValueError from it is caught by the inner `except ValueError:
pass` and the detach line is never reached.  When umount succeeds, the
f-string `losetup -d ...` evaluates `loop[0]` first: if `loop` is empty
this raises IndexError, which the inner handler (ValueError only) does not
catch — the Bool result records whether the finally block itself raised.
Otherwise the detach command runs and any ValueError from it is caught. -/
def DatasetManager.injectFinally (ex : Exec) (mnt : String) (loop : List String)
    (d : DatasetManager) : Bool × List String :=
  match getIo ex (d.umountCmd mnt) with
  | .error _ => (false, [d.umountCmd mnt])
  | .ok _ =>
    match loop.head? with
    | none => (true, [d.umountCmd mnt])
    | some dev => (false, [d.umountCmd mnt, d.detachCmd dev])

/-- Models `DatasetManager.inject` (pool.py lines 66-104), combining the
try block with the finally block under Python semantics: an exception
raised by the finally block replaces any pending return value or in-flight
exception; otherwise the pending outcome stands.  The result is
`.ok none` on success, `.ok (some msg)` for a caught ValueError, and
`.error .indexError` for the uncaught IndexError; the trace lists every
command run. -/
def DatasetManager.inject (ex : Exec) (mnt ip hostname : String) (d : DatasetManager) :
    Except PyExc (Option String) × List String :=
  match d.injectTry ex mnt ip hostname with
  | (pending, loop, tr1) =>
    match d.injectFinally ex mnt loop with
    | (crashed, tr2) =>
      let res : Except PyExc (Option String) :=
        if crashed then .error .indexError
        else
          match pending with
          | .retNone => .ok none
          | .retErr m => .ok (some m)
          | .excIndex => .error .indexError
      (res, tr1 ++ tr2)

/-- Python truthiness of an `Optional[str]` argument: None and the empty
string are falsy. -/
def truthy : Option String → Bool
  | none => false
  | some s => s ≠ ""

/-- The wrapped string of a truthy `Optional[str]` (unused default on
None). -/
def theStr : Option String → String
  | none => ""
  | some s => s

/-- Runtime value of the `guestName` local in `LVConn.createVM` after the
identity-resolution block (libvirtConnector.py lines 340-353).  The
reverse branch assigns the entire `socket.gethostbyaddr` result — a
(hostname, aliaslist, ipaddrlist) tuple — to `guestName`, so the local may
hold either a string or such a tuple. -/
inductive GuestVal
  | str (s : String)
  | tuple (t : String × List String × List String)
deriving DecidableEq

/-- Python str() rendering of a list of strings, as it appears when a
tuple holding such lists is formatted into a command or template. -/
def pyReprList (xs : List String) : String :=
  "[" ++ String.intercalate ", " (xs.map (fun s => "\x27" ++ s ++ "\x27")) ++ "]"

/-- Python str() rendering of the `guestName` local when it is formatted
into an f-string or str.format argument: a string renders as itself, a
tuple as its repr, e.g. `(\x27g1\x27, [], [\x2710.0.0.9\x27])`. -/
def GuestVal.render : GuestVal → String
  | .str s => s
  | .tuple (h, al, ad) =>
      "(\x27" ++ h ++ "\x27, " ++ pyReprList al ++ ", " ++ pyReprList ad ++ ")"

/-- The parameters of `DomainDefiner`'s str.format call in
`LVConn._createVMFromTemplate` (libvirtConnector.py line 304), i.e. the
positional arguments substituted into the VM definition template in
order: name, uuid, current memory (KiB), maximum memory (KiB), vcpu
count, disk path, bridge. -/
structure DomainRender where
  name : String
  uuid : String
  currentMemoryKiB : Nat
  maxMemoryKiB : Nat
  cpus : Nat
  disk : String
  bridge : String
deriving DecidableEq

/-- Externally visible actions of a `createVM` run: shell commands issued
through `_getIO`, DNS queries, template-file reads, and libvirt
control-plane mutations (`storagePoolDefineXML`, `setAutostart`,
`defineXML`). -/
inductive Event
  | cmd (c : String)
  | dnsForward (name : String)
  | dnsReverse (addr : String)
  | fileRead (fn : String)
  | definePool (pooln path : String)
  | setAutostart (pooln : String)
  | defineDomain (r : DomainRender)
deriving DecidableEq

/-- The environment a `createVM` run executes against: the shell oracle,
the DNS resolver (`socket.gethostbyname` returning an address or a
gaierror message, `socket.gethostbyaddr` returning the full
(hostname, aliases, addresses) tuple or an herror message), the file
system, and the uuid generator's next value. -/
structure World where
  exec : Exec
  gethostbyname : String → Except String String
  gethostbyaddr : String → Except String (String × List String × List String)
  readFile : String → String
  newUUID : String

/-- Models the identity-resolution block of `LVConn.createVM`
(libvirtConnector.py lines 340-353): forward DNS when only the guest name
is truthy, reverse DNS when only the IP address is truthy (assigning the
whole gethostbyaddr tuple to the guest-name local), an immediate error
when neither is truthy, and no lookup when both are.  Returns the
resulting (guestName, ipAddress) locals or the returned error string,
together with the DNS queries performed. -/
def resolveIdentity (w : World) (guestName ipAddress : Option String) :
    Except String (GuestVal × String) × List Event :=
  if truthy guestName && !truthy ipAddress then
    match w.gethostbyname (theStr guestName) with
    | .error e =>
        (.error ("Guest host name does not have a corresponding DNS A record: " ++ e),
         [.dnsForward (theStr guestName)])
    | .ok addr => (.ok (.str (theStr guestName), addr), [.dnsForward (theStr guestName)])
  else if truthy ipAddress && !truthy guestName then
    match w.gethostbyaddr (theStr ipAddress) with
    | .error e =>
        (.error ("Guest host IP address does not have corresponding DNS A record: " ++ e),
         [.dnsReverse (theStr ipAddress)])
    | .ok t => (.ok (.tuple t, theStr ipAddress), [.dnsReverse (theStr ipAddress)])
  else if !truthy ipAddress && !truthy guestName then
    (.error "Must provide either ipAddress or guestName.", [])
  else
    (.ok (.str (theStr guestName), theStr ipAddress), [])

/-- Models `utils.asyncCachedTimedFileIO` (utils.py lines 14-26) as it
stands in the source: the `@cached` decorator is commented out, so every
invocation opens and reads the file.  The read log passed in is returned
extended by this call's read. -/
def asyncCachedTimedFileIo (readFile : String → String) (fn : String)
    (readLog : List String) : String × List String :=
  (readFile fn, readLog ++ [fn])

/-- Models `LVConn._createStoragePool` (libvirtConnector.py lines 268-285):
read the pool template, format it with the pool name and dataset mount
path, define the pool and mark it autostart.  The control-plane calls are
recorded as events carrying the format arguments. -/
def LVConn.createStoragePool (pooln path fn : String) : List Event :=
  [.fileRead fn, .definePool pooln path, .setAutostart pooln]

/-- Models `LVConn._createVMFromTemplate` (libvirtConnector.py lines
287-306): read the template, compute `mem_kiB = memory * 2 ** 10`, format
the template with (name, a fresh uuid, mem_kiB, mem_kiB, cpus, disk,
bridge) and define the domain.  Returns the format arguments and the
events. -/
def LVConn.createVMFromTemplate (w : World) (name : String) (memory : Nat)
    (disk bridge : String) (cpus : Nat) (template : String) : DomainRender × List Event :=
  let memKiB := memory * 2 ^ 10
  let r : DomainRender := ⟨name, w.newUUID, memKiB, memKiB, cpus, disk, bridge⟩
  (r, [.fileRead template, .defineDomain r])

/-- Outcome of a `createVM` run: the rendered domain definition on
success, the returned error string on a reported failure, or an uncaught
exception escaping the coroutine. -/
inductive VMOutcome
  | ok (r : DomainRender)
  | err (msg : String)
  | crash (e : PyExc)
deriving DecidableEq

/-- Models `LVConn.createVM` (libvirtConnector.py lines 308-381): resolve
the guest identity, construct the DatasetManager (with this connection's
host), clone (returning its error string if truthy), inject (likewise),
query the mount point — whose result is NOT error-checked: the returned
string, error message or not, is used as `path` — then register the
storage pool.  Line 378 next evaluates the call argument
env["VM_TEMPLATES_DIR"] for `_createVMFromTemplate`; settings.py (lines
16-27) builds `env` as a literal dict with no such key, so every run that
completes pool registration raises an uncaught KeyError before
`_createVMFromTemplate` is entered — no run of `createVM` ever defines a
domain or returns the rendered template (the earlier call arguments,
including `memory`, `bridge` and `cpus`, are evaluated without effect and
discarded).  `mnt` is REMOTE_LOOP_MOUNTPOINT and `pdp` is
DEFAULT_POOL_DEFINITION_PATH, whose keys do exist. -/
def LVConn.createVM (w : World) (mnt : String) (host : Option String)
    (dataset snapshot : String) (guestName ipAddress : Option String) (bridge : String)
    (memory cpus : Nat) (pdp template : String) : VMOutcome × List Event :=
  match resolveIdentity w guestName ipAddress with
  | (.error msg, evs) => (.err msg, evs)
  | (.ok (guest, ip), evs) =>
    let dmh := DatasetManager.init snapshot dataset host
    match dmh.clone w.exec with
    | (some e, tr) => (.err e, evs ++ tr.map .cmd)
    | (none, tr1) =>
      match dmh.inject w.exec mnt ip guest.render with
      | (.error exc, tr2) => (.crash exc, evs ++ (tr1 ++ tr2).map .cmd)
      | (.ok (some e), tr2) => (.err e, evs ++ (tr1 ++ tr2).map .cmd)
      | (.ok none, tr2) =>
        match dmh.getMountPoint w.exec with
        | (.error exc, tr3) => (.crash exc, evs ++ (tr1 ++ tr2 ++ tr3).map .cmd)
        | (.ok path, tr3) =>
          let poolEvs := LVConn.createStoragePool guest.render path pdp
          (.crash (.keyError "VM_TEMPLATES_DIR"),
           evs ++ (tr1 ++ tr2 ++ tr3).map .cmd ++ poolEvs)

/-- Is a storage-pool or domain mutation present in a trace? -/
def hasPoolOrDomainEvent (evs : List Event) : Bool :=
  evs.any fun e =>
    match e with
    | .definePool _ _ => true
    | .setAutostart _ => true
    | .defineDomain _ => true
    | _ => false

/-- Is a domain definition present in a trace? -/
def hasDomainEvent (evs : List Event) : Bool :=
  evs.any fun e =>
    match e with
    | .defineDomain _ => true
    | _ => false

/-- Modelled from the spec: the spec's phrase "first whitespace-delimited
token" (of a line of tool output), for comparison against what the code
actually uses. -/
def firstToken (s : String) : String :=
  (((splitCharsAux ' ' s.toList []).filter (fun p => p ≠ "")).headD "")

/-- Modelled from the spec: the spec's phrase "all trailing \x27/\x27
characters removed" applied to a dataset name, for comparison against
what `DatasetManager.__init__` actually stores. -/
def stripTrailingSlashes (s : String) : String :=
  String.mk (s.toList.reverse.dropWhile (fun c => c = '/')).reverse

/- Concrete fixtures used by counterexamples and witnesses. -/

/-- Fixture: the DatasetManager of the C1 scenario. -/
def dC1 : DatasetManager := DatasetManager.init "VMPool/img@s" "VMPool/test" none

/-- Fixture: an execution oracle on which the loop-attach command fails
(stderr `boom`) while every other command — in particular the cleanup
umount — succeeds with empty output. -/
def exC1 : Exec := fun c =>
  if c = "zfs get mountpoint VMPool/test -Ho value" then ("/VMPool/test\n", "")
  else if c = "losetup -fvP --show /VMPool/test/root.raw" then ("", "boom")
  else ("", "")

/-- Fixture: the DatasetManager of the C2 scenario. -/
def dC2 : DatasetManager := DatasetManager.init "s2" "d2" none

/-- Fixture: an oracle on which the `zfs get mountpoint` query always
fails (stderr `qerr`) while every other command succeeds; the loop-attach
command that embeds the resulting error text as its path returns a
device. -/
def exC2 : Exec := fun c =>
  if c = "zfs get mountpoint d2 -Ho value" then ("", "qerr")
  else if c = "losetup -fvP --show Error Command exited with errors: b\x27qerr\x27/root.raw"
    then ("/dev/loop7\n", "")
  else ("", "")

/-- Fixture: the world of the C2 counterexample run. -/
def wC2 : World := ⟨exC2, fun _ => .error "nx", fun _ => .error "nx", fun _ => "tmpl", "uuid-2"⟩

/-- Fixture: an oracle on which the clone command fails with stderr
`cerr` and everything else succeeds. -/
def exCA : Exec := fun c =>
  if c = "zfs clone sA dA" then ("", "cerr") else ("", "")

/-- Fixture: the world of the C2 witness run. -/
def wCA : World := ⟨exCA, fun _ => .error "nx", fun _ => .error "nx", fun _ => "", "u"⟩

/-- Fixture: a world with no guest name supplied, reverse DNS resolving
10.0.0.9 to the tuple (g1, [], [10.0.0.9]), and all commands
succeeding. -/
def wC4 : World :=
  ⟨fun c =>
      if c = "zfs get mountpoint d4 -Ho value" then ("/V/d4\n", "")
      else if c = "losetup -fvP --show /V/d4/root.raw" then ("/dev/loop0\n", "")
      else ("", ""),
   fun _ => .error "nx",
   fun a => if a = "10.0.0.9" then .ok ("g1", [], ["10.0.0.9"]) else .error "nx",
   fun _ => "t", "uuid-4"⟩

/-- Fixture: the DatasetManager of the C5 scenario. -/
def dC5 : DatasetManager := DatasetManager.init "s5" "d5" none

/-- Fixture: an oracle whose loop-attach output's first line, `d0 x`,
contains whitespace. -/
def exC5 : Exec := fun c =>
  if c = "zfs get mountpoint d5 -Ho value" then ("/p5\n", "")
  else if c = "losetup -fvP --show /p5/root.raw" then ("d0 x\n", "")
  else ("", "")

/-- Fixture: a file system whose file contents are `v1` everywhere. -/
def fsC9a : String → String := fun _ => "v1"

/-- Fixture: a file system whose file contents are `v2` everywhere,
standing for the same files after their contents changed. -/
def fsC9b : String → String := fun _ => "v2"

/-- Fixture: an oracle on which every command returns empty stdout and
empty stderr. -/
def exC10 : Exec := fun _ => ("", "")

/-- Fixture: an oracle on which every command prints `/VMPool/t`. -/
def exC10b : Exec := fun _ => ("/VMPool/t\n", "")

/-- Fixture: a DatasetManager for the C10 witness. -/
def dC10 : DatasetManager := DatasetManager.init "sX" "dX" none

/-- Fixture: a world for the C3 witness. -/
def wC3 : World := ⟨fun _ => ("", ""), fun _ => .error "x", fun _ => .error "x", fun _ => "", "u"⟩

/-- C1: the spec claims inject's cleanup phase swallows its own failures
and the caller always sees the original error of the attach/mount/write
steps.  On the code, when the loop attach fails (so `loop` stays `[]`)
and the cleanup umount succeeds, evaluating the detach f-string raises an
IndexError that the inner `except ValueError` does not catch; it escapes
the finally block and replaces the pending original error.  This theorem
evaluates the embedding at that failing input: the try block ends with
the original attach error pending, yet the caller sees the IndexError,
and the detach command is never issued. -/
theorem inject_cleanup_masks_original_error :
    (dC1.injectTry exC1 "/mnt" "10.0.0.5" "g1").1
      = .retErr "Error Command exited with errors: b\x27boom\x27" ∧
    (dC1.inject exC1 "/mnt" "10.0.0.5" "g1").1 = .error .indexError ∧
    (dC1.inject exC1 "/mnt" "10.0.0.5" "g1").2
      = ["zfs get mountpoint VMPool/test -Ho value",
         "losetup -fvP --show /VMPool/test/root.raw",
         "umount /mnt"] :=
  ⟨by decide, by rfl, by decide⟩

/-- C4: the reverse (address→name) resolution branch assigns the whole
`socket.gethostbyaddr` tuple to the guest-name local, so the value used
by the later steps that actually run is the tuple's string rendering, not
the resolved hostname.  Evaluated at a concrete world where 10.0.0.9
resolves to (g1, [], [10.0.0.9]): the hostname written into the image and
the name the storage pool is registered under are the rendered tuple, not
g1.  (The run then ends in the uncaught VM_TEMPLATES_DIR KeyError before
any domain definition, so no step after pool registration sees it.) -/
theorem reverse_dns_assigns_tuple_not_name :
    (resolveIdentity wC4 none (some "10.0.0.9")).1
      = .ok (.tuple ("g1", [], ["10.0.0.9"]), "10.0.0.9") ∧
    GuestVal.render (.tuple ("g1", [], ["10.0.0.9"]))
      = "(\x27g1\x27, [], [\x2710.0.0.9\x27])" ∧
    Event.cmd "\x27echo (\x27g1\x27, [], [\x2710.0.0.9\x27]) > /mnt/etc/hostname\x27"
      ∈ (LVConn.createVM wC4 "/mnt" none "d4" "s4" none (some "10.0.0.9") "br0" 1024 2
          "pd" "ubuntu").2 ∧
    Event.definePool "(\x27g1\x27, [], [\x2710.0.0.9\x27])" "/V/d4"
      ∈ (LVConn.createVM wC4 "/mnt" none "d4" "s4" none (some "10.0.0.9") "br0" 1024 2
          "pd" "ubuntu").2 ∧
    ("(\x27g1\x27, [], [\x2710.0.0.9\x27])" : String) ≠ "g1" :=
  ⟨by rfl, by rfl, by decide, by decide, by decide⟩

/-- C5 counterexample: the claim says the device node used for the
partition mount and the detach is the first whitespace-delimited token of
the attach output's first line.  The code uses the whole first line
(`loop[0]`), with no whitespace splitting: on an attach output whose
first line is `d0 x`, the issued mount and detach commands embed
`d0 x`, not the first token `d0`. -/
theorem inject_uses_whole_first_line :
    firstToken "d0 x" = "d0" ∧
    "mount d0 xp1 /mnt" ∈ (dC5.inject exC5 "/mnt" "ip5" "h5").2 ∧
    "mount d0p1 /mnt" ∉ (dC5.inject exC5 "/mnt" "ip5" "h5").2 ∧
    "losetup -d d0 x" ∈ (dC5.inject exC5 "/mnt" "ip5" "h5").2 ∧
    "losetup -d d0" ∉ (dC5.inject exC5 "/mnt" "ip5" "h5").2 := by
  decide

/-- C6 counterexample: the claim says all trailing slash characters of the
caller-supplied dataset name are removed on construction.  The code
removes at most one: on the name `a//` the stored name is `a/`, while
removing all trailing slashes would give `a`. -/
theorem datasetName_keeps_second_trailing_slash :
    (DatasetManager.init "i" "a//" none).datasetName = "a/" ∧
    stripTrailingSlashes "a//" = "a" ∧
    (DatasetManager.init "i" "a//" none).datasetName ≠ stripTrailingSlashes "a//" := by
  decide

/-- C9: the claim (and the function's own docstring) says template files
are cached after the first read, the second invocation returning the
previously read content without reading the file again.  In the source
the caching decorator is commented out: a second invocation with the same
file name performs a second read and returns the file's current content
(v2 below), not the first-read content (v1). -/
theorem template_file_reread_every_call :
    (asyncCachedTimedFileIo fsC9a "pool.xml" []).2 = ["pool.xml"] ∧
    asyncCachedTimedFileIo fsC9b "pool.xml" (asyncCachedTimedFileIo fsC9a "pool.xml" []).2
      = ("v2", ["pool.xml", "pool.xml"]) :=
  ⟨rfl, rfl⟩

/-- C2 counterexample: the claim says every step failure — including the
mount-path query between injection and pool registration — stops the
pipeline, the first failure being the reported one.  On a world where the
`zfs get mountpoint` command always errors, `getMountPoint` catches the
error and returns its text, `createVM` never checks it, and pool
registration — a later step — is still attempted with the error text as
the mount path; the run then ends in the uncaught VM_TEMPLATES_DIR
KeyError rather than reporting the query's error, and no domain is ever
defined. -/
theorem createVM_mountpoint_failure_not_shortcircuited :
    (wC2.exec dC2.mountPointCmd).2 = "qerr" ∧
    Event.definePool "g2" "Error Command exited with errors: b\x27qerr\x27"
      ∈ (LVConn.createVM wC2 "/mnt" none "d2" "s2" (some "g2") (some "10.0.0.2") "br0"
          512 1 "pd" "ubuntu").2 ∧
    (LVConn.createVM wC2 "/mnt" none "d2" "s2" (some "g2") (some "10.0.0.2") "br0"
        512 1 "pd" "ubuntu").1 = .crash (.keyError "VM_TEMPLATES_DIR") ∧
    hasDomainEvent
        (LVConn.createVM wC2 "/mnt" none "d2" "s2" (some "g2") (some "10.0.0.2") "br0"
          512 1 "pd" "ubuntu").2 = false := by
  decide

/-- C3: when both the guest name and the IP address are absent (Python
falsy), `createVM` returns the missing-identity error immediately and the
event trace is empty — no shell command, no DNS query, no file read and
no control-plane mutation happens. -/
theorem createVM_missing_identity_no_remote_calls (w : World) (mnt : String)
    (host : Option String) (dataset snapshot : String) (guestName ipAddress : Option String)
    (bridge : String) (memory cpus : Nat) (pdp template : String)
    (hg : truthy guestName = false) (hi : truthy ipAddress = false) :
    LVConn.createVM w mnt host dataset snapshot guestName ipAddress bridge memory cpus
      pdp template = (.err "Must provide either ipAddress or guestName.", []) := by
  have hres : resolveIdentity w guestName ipAddress
      = (.error "Must provide either ipAddress or guestName.", []) := by
    simp [resolveIdentity, hg, hi]
  simp [LVConn.createVM, hres]

/-- Witness for C3 at a concrete world with both identity fields None. -/
theorem createVM_missing_identity_no_remote_calls_witness :
    LVConn.createVM wC3 "/mnt" none "d" "s" none none "br" 1 1 "p" "u"
      = (.err "Must provide either ipAddress or guestName.", []) :=
  createVM_missing_identity_no_remote_calls wC3 "/mnt" none "d" "s" none none "br" 1 1
    "p" "u" rfl rfl

/-- C7: the memory argument, given in MiB, is converted to KiB as
`memory * 2 ** 10 = memory * 1024`, and this single value fills both the
current-memory and the maximum-memory fields of the rendered domain
template. -/
theorem memory_mib_to_kib_both_fields (w : World) (name : String) (memory : Nat)
    (disk bridge : String) (cpus : Nat) (template : String) :
    (LVConn.createVMFromTemplate w name memory disk bridge cpus template).1.currentMemoryKiB
      = memory * 1024 ∧
    (LVConn.createVMFromTemplate w name memory disk bridge cpus template).1.maxMemoryKiB
      = memory * 1024 := by
  constructor <;> simp [LVConn.createVMFromTemplate]

/-- C8: `_getIO` fails exactly when the command produced output on its
error stream; the raised error carries the diagnostic text, and otherwise
the captured standard output is returned. -/
theorem getIo_fails_iff_stderr_nonempty (stdout stderr : String) :
    ((∃ e, getIoRes stdout stderr = .error e) ↔ stderr ≠ "") ∧
    (stderr ≠ "" → getIoRes stdout stderr
        = .error ("Command exited with errors: " ++ pyBytesRepr stderr)) ∧
    (stderr = "" → getIoRes stdout stderr = .ok (capturedOutput stdout)) := by
  by_cases h : stderr = "" <;> simp [getIoRes, h]

/-- Witness for C8 at concrete outputs: a command with stderr fails with
its text, a command without stderr returns its stdout. -/
theorem getIo_fails_iff_stderr_nonempty_witness :
    getIoRes "out\n" "err" = .error ("Command exited with errors: " ++ pyBytesRepr "err") ∧
    getIoRes "x" "" = .ok (capturedOutput "x") :=
  ⟨(getIo_fails_iff_stderr_nonempty "out\n" "err").2.1 (by decide),
   (getIo_fails_iff_stderr_nonempty "x" "").2.2 rfl⟩

/-- C10: empty command output is returned unsplit (not as a line list);
non-empty output is returned as lines; `getMountPoint`'s error branch
catches exactly the command-error failures, its `mp[0]` returns the first
line when there is one, and on empty output the indexing is out of
bounds — an uncaught IndexError, not a caught error. -/
theorem getMountPoint_first_line_precondition (ex : Exec) (d : DatasetManager) :
    capturedOutput "" = .rawEmpty ∧
    (∀ stdout : String, stdout ≠ "" → ∃ ls, capturedOutput stdout = .lines ls) ∧
    (∀ e, getIo ex d.mountPointCmd = .error e →
        (d.getMountPoint ex).1 = .ok ("Error " ++ e)) ∧
    (ex d.mountPointCmd = ("", "") → (d.getMountPoint ex).1 = .error .indexError) ∧
    (∀ l rest, getIo ex d.mountPointCmd = .ok (.lines (l :: rest)) →
        (d.getMountPoint ex).1 = .ok l) := by
  refine ⟨rfl, ?_, ?_, ?_, ?_⟩
  · intro stdout h
    unfold capturedOutput
    rw [if_pos h]
    exact ⟨_, rfl⟩
  · intro e he
    simp [DatasetManager.getMountPoint, he]
  · intro hx
    have hok : getIo ex d.mountPointCmd = .ok .rawEmpty := by
      unfold getIo
      rw [hx]
      rfl
    simp [DatasetManager.getMountPoint, hok, GetIoOut.first?]
  · intro l rest h
    simp [DatasetManager.getMountPoint, h, GetIoOut.first?]

/-- Witness for C10: with empty output the embedded getMountPoint ends in
the uncaught IndexError; with a one-line output it returns that line. -/
theorem getMountPoint_first_line_precondition_witness :
    (dC10.getMountPoint exC10).1 = .error .indexError ∧
    (dC10.getMountPoint exC10b).1 = .ok "/VMPool/t" :=
  ⟨(getMountPoint_first_line_precondition exC10 dC10).2.2.2.1 rfl,
   (getMountPoint_first_line_precondition exC10b dC10).2.2.2.2 "/VMPool/t" [] (by rfl)⟩

/-- C6 amended: the constructor removes exactly one trailing separator,
and only when the name is longer than one character: a name ending in a
slash (with length above one) is stored minus its final character — so
appending the slash back gives the original name — and any other name,
and any name of length at most one, is stored unchanged. -/
theorem datasetName_strips_one_trailing_slash (img s : String) (host : Option String) :
    (1 < s.length → s.toList.getLast? = some '/' →
        (DatasetManager.init img s host).datasetName ++ "/" = s) ∧
    (s.toList.getLast? ≠ some '/' → (DatasetManager.init img s host).datasetName = s) ∧
    (s.length ≤ 1 → (DatasetManager.init img s host).datasetName = s) := by
  refine ⟨?_, ?_, ?_⟩
  · intro h1 h2
    have hinit : (DatasetManager.init img s host).datasetName
        = String.mk s.toList.dropLast := by
      show (if 1 < s.length ∧ s.toList.getLast? = some '/' then
          String.mk s.toList.dropLast else s) = String.mk s.toList.dropLast
      rw [if_pos ⟨h1, h2⟩]
    have hl : s.toList.dropLast ++ ['/'] = s.toList :=
      List.dropLast_append_getLast? '/' h2
    rw [hinit]
    show String.mk (s.toList.dropLast ++ ['/']) = s
    rw [hl]
    rfl
  · intro h2
    show (if 1 < s.length ∧ s.toList.getLast? = some '/' then
        String.mk s.toList.dropLast else s) = s
    rw [if_neg (fun hc => h2 hc.2)]
  · intro h1
    show (if 1 < s.length ∧ s.toList.getLast? = some '/' then
        String.mk s.toList.dropLast else s) = s
    rw [if_neg (fun hc => absurd hc.1 (by omega))]

/-- Witness for C6: stripping `ds/` stores `ds`, one slash removed. -/
theorem datasetName_strips_one_trailing_slash_witness :
    (DatasetManager.init "i" "ds/" none).datasetName ++ "/" = "ds/" :=
  (datasetName_strips_one_trailing_slash "i" "ds/" none).1 (by decide) (by decide)

/-- C5 amended: the device node `inject` uses is the ENTIRE first line of
the attach tool's output (`loop[0]`, no whitespace splitting): given that
the mount-path step returned `mp` and the attach command's output had
first line `l`, the `loop` local holds `l` as its first element (so the
detach f-string renders `l`), and the partition-mount command issued
embeds `l` whole. -/
theorem inject_device_is_first_line (ex : Exec) (d : DatasetManager)
    (mnt ip hn mp l : String) (rest trmp : List String)
    (h1 : d.getMountPoint ex = (.ok mp, trmp))
    (h2 : getIo ex (d.losetupCmd mp) = .ok (.lines (l :: rest))) :
    (d.injectTry ex mnt ip hn).2.1.head? = some l ∧
    d.mountCmd l mnt ∈ (d.inject ex mnt ip hn).2 := by
  have key : ∃ p tr, d.injectTry ex mnt ip hn = (p, l :: rest, tr) ∧
      d.mountCmd l mnt ∈ tr := by
    simp only [DatasetManager.injectTry, h1, h2, List.head?_cons]
    rcases getIo ex (d.mountCmd l mnt) with e | o
    · exact ⟨_, _, rfl, by simp⟩
    · rcases getIo ex (d.echoAddrCmd ip mnt) with e2 | o2
      · exact ⟨_, _, rfl, by simp⟩
      · rcases getIo ex (d.echoHostCmd hn mnt) with e3 | o3
        · exact ⟨_, _, rfl, by simp⟩
        · exact ⟨_, _, rfl, by simp⟩
  obtain ⟨p, tr, htry, hmem⟩ := key
  constructor
  · rw [htry]
    rfl
  · unfold DatasetManager.inject
    rw [htry]
    show d.mountCmd l mnt ∈ tr ++ (d.injectFinally ex mnt (l :: rest)).2
    exact List.mem_append_left _ hmem

/-- Witness for C5 amended, at the oracle whose attach output's first line
is `d0 x`: the whole line is the device recorded and mounted. -/
theorem inject_device_is_first_line_witness :
    (dC5.injectTry exC5 "/mnt" "ip5" "h5").2.1.head? = some "d0 x" ∧
    dC5.mountCmd "d0 x" "/mnt" ∈ (dC5.inject exC5 "/mnt" "ip5" "h5").2 :=
  inject_device_is_first_line exC5 dC5 "/mnt" "ip5" "h5" "/p5" "d0 x" [] [dC5.mountPointCmd]
    (by rfl) (by rfl)

/-- Shell commands alone never mutate the pool/domain state of the
control plane in the trace vocabulary. -/
theorem hasPoolOrDomainEvent_map_cmd (l : List String) :
    hasPoolOrDomainEvent (l.map .cmd) = false := by
  induction l with
  | nil => rfl
  | cons a l ih => simp [hasPoolOrDomainEvent]

/-- A trace concatenation contains a pool/domain mutation exactly when one
of its halves does. -/
theorem hasPoolOrDomainEvent_append (a b : List Event) :
    hasPoolOrDomainEvent (a ++ b)
      = (hasPoolOrDomainEvent a || hasPoolOrDomainEvent b) := by
  simp [hasPoolOrDomainEvent, List.any_append]

/-- The identity-resolution block performs DNS queries only: its trace
never contains a pool or domain mutation. -/
theorem resolveIdentity_no_mutation (w : World) (gn ip : Option String) :
    hasPoolOrDomainEvent (resolveIdentity w gn ip).2 = false := by
  unfold resolveIdentity
  split
  · rcases h : w.gethostbyname (theStr gn) with e | a <;> simp [h, hasPoolOrDomainEvent]
  · split
    · rcases h : w.gethostbyaddr (theStr ip) with e | t <;> simp [h, hasPoolOrDomainEvent]
    · split <;> simp [hasPoolOrDomainEvent]

/-- Shell commands alone never define a domain in the trace vocabulary. -/
theorem hasDomainEvent_map_cmd (l : List String) :
    hasDomainEvent (l.map .cmd) = false := by
  induction l with
  | nil => rfl
  | cons a l ih => simp [hasDomainEvent]

/-- A trace concatenation contains a domain definition exactly when one
of its halves does. -/
theorem hasDomainEvent_append (a b : List Event) :
    hasDomainEvent (a ++ b) = (hasDomainEvent a || hasDomainEvent b) := by
  simp [hasDomainEvent, List.any_append]

/-- The identity-resolution block never defines a domain. -/
theorem resolveIdentity_no_domain (w : World) (gn ip : Option String) :
    hasDomainEvent (resolveIdentity w gn ip).2 = false := by
  unfold resolveIdentity
  split
  · rcases h : w.gethostbyname (theStr gn) with e | a <;> simp [h, hasDomainEvent]
  · split
    · rcases h : w.gethostbyaddr (theStr ip) with e | t <;> simp [h, hasDomainEvent]
    · split <;> simp [hasDomainEvent]

/-- C2 amended: clone and injection failures short-circuit `createVM` —
the step's error string is returned and no pool or domain mutation is
attempted — but a failure of the mount-path query between injection and
pool registration does NOT short-circuit: `getMountPoint` catches the
command error internally and returns its text, `createVM` uses whatever
string came back as the mount path, and pool registration is attempted
regardless.  Domain definition, however, is never attempted by any run:
every run that completes pool registration ends in the uncaught KeyError
of the absent VM_TEMPLATES_DIR configuration key, so the outcome reported
after pool registration is that crash, not the query's error. -/
theorem createVM_shortcircuit_amended (w : World) (mnt : String) (host : Option String)
    (dataset snapshot : String) (guestName ipAddress : Option String) (bridge : String)
    (memory cpus : Nat) (pdp template : String) (g : GuestVal) (ip : String)
    (evs : List Event)
    (hres : resolveIdentity w guestName ipAddress = (.ok (g, ip), evs)) :
    (∀ e tr, (DatasetManager.init snapshot dataset host).clone w.exec = (some e, tr) →
        LVConn.createVM w mnt host dataset snapshot guestName ipAddress bridge memory cpus
            pdp template = (.err e, evs ++ tr.map .cmd) ∧
        hasPoolOrDomainEvent (evs ++ tr.map .cmd) = false) ∧
    (∀ e tr1 tr2, (DatasetManager.init snapshot dataset host).clone w.exec = (none, tr1) →
        (DatasetManager.init snapshot dataset host).inject w.exec mnt ip g.render
          = (.ok (some e), tr2) →
        LVConn.createVM w mnt host dataset snapshot guestName ipAddress bridge memory cpus
            pdp template = (.err e, evs ++ (tr1 ++ tr2).map .cmd) ∧
        hasPoolOrDomainEvent (evs ++ (tr1 ++ tr2).map .cmd) = false) ∧
    (∀ path tr1 tr2 tr3,
        (DatasetManager.init snapshot dataset host).clone w.exec = (none, tr1) →
        (DatasetManager.init snapshot dataset host).inject w.exec mnt ip g.render
          = (.ok none, tr2) →
        (DatasetManager.init snapshot dataset host).getMountPoint w.exec = (.ok path, tr3) →
        Event.definePool g.render path
            ∈ (LVConn.createVM w mnt host dataset snapshot guestName ipAddress bridge memory
                cpus pdp template).2 ∧
        (LVConn.createVM w mnt host dataset snapshot guestName ipAddress bridge memory cpus
            pdp template).1 = .crash (.keyError "VM_TEMPLATES_DIR") ∧
        hasDomainEvent (LVConn.createVM w mnt host dataset snapshot guestName ipAddress
            bridge memory cpus pdp template).2 = false) := by
  have hevs : hasPoolOrDomainEvent evs = false := by
    have h := resolveIdentity_no_mutation w guestName ipAddress
    rw [hres] at h
    exact h
  refine ⟨?_, ?_, ?_⟩
  · intro e tr hclone
    constructor
    · simp only [LVConn.createVM, hres, hclone]
    · rw [hasPoolOrDomainEvent_append, hevs, hasPoolOrDomainEvent_map_cmd]
      rfl
  · intro e tr1 tr2 hclone hinj
    constructor
    · simp only [LVConn.createVM, hres, hclone, hinj]
    · rw [hasPoolOrDomainEvent_append, hevs, hasPoolOrDomainEvent_map_cmd]
      rfl
  · intro path tr1 tr2 tr3 hclone hinj hmp
    have hevsd : hasDomainEvent evs = false := by
      have h := resolveIdentity_no_domain w guestName ipAddress
      rw [hres] at h
      exact h
    have hrun : LVConn.createVM w mnt host dataset snapshot guestName ipAddress bridge
        memory cpus pdp template
        = (.crash (.keyError "VM_TEMPLATES_DIR"),
           evs ++ (tr1 ++ tr2 ++ tr3).map .cmd
             ++ LVConn.createStoragePool g.render path pdp) := by
      simp only [LVConn.createVM, hres, hclone, hinj, hmp]
    rw [hrun]
    refine ⟨?_, rfl, ?_⟩
    · simp [LVConn.createStoragePool]
    · rw [hasDomainEvent_append, hasDomainEvent_append, hevsd, hasDomainEvent_map_cmd]
      simp [LVConn.createStoragePool, hasDomainEvent]

/-- Witness for C2 amended: on the world where the clone command fails,
`createVM` returns the clone error and the trace holds only the clone
command — no pool or domain mutation; and on the world where the
mount-path query fails after a clean clone and injection, the pool is
registered under the error text and the run ends in the KeyError crash
with no domain definition. -/
theorem createVM_shortcircuit_amended_witness :
    (LVConn.createVM wCA "/mnt" none "dA" "sA" (some "gA") (some "1.2.3.4") "br" 1 1
        "p" "u"
      = (.err "Error Command exited with errors: b\x27cerr\x27",
         [Event.cmd "zfs clone sA dA"]) ∧
    hasPoolOrDomainEvent [Event.cmd "zfs clone sA dA"] = false) ∧
    (Event.definePool "g2" "Error Command exited with errors: b\x27qerr\x27"
        ∈ (LVConn.createVM wC2 "/mnt" none "d2" "s2" (some "g2") (some "10.0.0.2") "br0"
            512 1 "pd" "ubuntu").2 ∧
     (LVConn.createVM wC2 "/mnt" none "d2" "s2" (some "g2") (some "10.0.0.2") "br0"
          512 1 "pd" "ubuntu").1 = .crash (.keyError "VM_TEMPLATES_DIR") ∧
     hasDomainEvent (LVConn.createVM wC2 "/mnt" none "d2" "s2" (some "g2")
          (some "10.0.0.2") "br0" 512 1 "pd" "ubuntu").2 = false) :=
  ⟨(createVM_shortcircuit_amended wCA "/mnt" none "dA" "sA" (some "gA") (some "1.2.3.4")
      "br" 1 1 "p" "u" (.str "gA") "1.2.3.4" [] (by rfl)).1
    "Error Command exited with errors: b\x27cerr\x27" ["zfs clone sA dA"] (by rfl),
   (createVM_shortcircuit_amended wC2 "/mnt" none "d2" "s2" (some "g2") (some "10.0.0.2")
      "br0" 512 1 "pd" "ubuntu" (.str "g2") "10.0.0.2" [] (by rfl)).2.2
    "Error Command exited with errors: b\x27qerr\x27"
    ["zfs clone s2 d2"]
    ["zfs get mountpoint d2 -Ho value",
     "losetup -fvP --show Error Command exited with errors: b\x27qerr\x27/root.raw",
     "mount /dev/loop7p1 /mnt",
     "\x27echo \"    address 10.0.0.2\" >> /mnt/etc/network/interfaces\x27",
     "\x27echo g2 > /mnt/etc/hostname\x27",
     "umount /mnt",
     "losetup -d /dev/loop7"]
    ["zfs get mountpoint d2 -Ho value"]
    (by rfl) (by rfl) (by rfl)⟩
